import Mathlib

/-!
# RUI3 sensor drivers: SCD30 (RAK12037) and OPT3001 (RAK1903)

A shallow embedding of `RUI3-Sensor-Node-Air-Quality/RAK12037-co2.cpp` and
`RUI3-WisBlock-Kit-1/RAK1903_light.cpp`, and theorems about it.

Conventions of the embedding.

* Module-scope globals become fields of an explicit state record; every driver
  function is a function from state (and the answers of the hardware during
  the call) to the new state.
* The Cayenne LPP buffer `g_solution_data` is the list of the entries added
  so far (the encoder is a collaborator of the drivers).
* `float` values that the code only copies (temperature, humidity) are values
  of an arbitrary type `F` with a zero; the lux value that is converted to an
  integer is an exact rational.
* `MYLOG` has no effect on the state and is left out.
-/

namespace RUI3

/-- Cayenne LPP channel identifiers used by the two drivers; they are macros of
`app.h`, used here as symbolic names only. -/
inductive Channel
  | LPP_CHANNEL_CO2_2
  | LPP_CHANNEL_CO2_Temp_2
  | LPP_CHANNEL_CO2_HUMID_2
  | LPP_CHANNEL_LIGHT
  deriving DecidableEq

/-- One entry of the telemetry payload, named after the `add...` method of
`g_solution_data` that appends it. -/
inductive LppEntry (F : Type)
  | addConcentration (ch : Channel) (ppm : Nat)
  | addTemperature (ch : Channel) (celsius : F)
  | addRelativeHumidity (ch : Channel) (rh : F)
  | addLuminosity (ch : Channel) (lux : Nat)
  deriving DecidableEq

/-- Whether a payload entry is a concentration entry. -/
def LppEntry.isConcentration {F : Type} : LppEntry F → Bool
  | .addConcentration _ _ => true
  | _ => false

namespace RAK12037

/-- Calls that `read_rak12037` makes to the SCD30 driver and to the Arduino
core, in the order they are made. -/
inductive Call
  | millis
  | dataAvailable
  | delay (ms : Nat)
  | getCO2
  | getTemperature
  | getHumidity
  | StopMeasurement
  deriving DecidableEq

/-- Globals of the air-quality application that the CO2 module reads or
writes, together with the record of the calls issued so far. -/
structure State (F : Type) where
  _last_bme_temp : F
  _last_bme_humid : F
  _has_last_bme_values : Bool
  t_h_discard_counter : Nat
  g_solution_data : List (LppEntry F)
  calls : List Call
  deriving DecidableEq

/-- What the hardware answers during one call of `read_rak12037`:
`dataAvailable k` is the result of the `k`-th evaluation of
`scd30.dataAvailable()` (counted from 0), `millis k` the `k`-th reading of
`millis()` (reading 0 is `start_time`), and the three sensor readings. -/
structure ReadEnv (F : Type) where
  dataAvailable : Nat → Bool
  millis : Nat → Nat
  getCO2 : Nat
  getTemperature : F
  getHumidity : F

/-- Outcome of the polling loop of `read_rak12037`: whether the loop was left
because data was available (`true`) or through the timeout branch (`false`),
and the calls made by the loop. The loop is entered for its `i`-th iteration
with `fuel` iterations left to run; `none` means the fuel ran out.

The readings of `millis()` are natural numbers (the millisecond counter does
not wrap around during the call) and `millis() - start_time` is their integer
difference. -/
def waitLoop (dataAvailable : Nat → Bool) (millis : Nat → Nat) (start_time : Nat) :
    Nat → Nat → Option (Bool × List Call)
  | 0, _ => none
  | fuel + 1, i =>
    if dataAvailable i then
      some (true, [Call.dataAvailable])
    else if ((millis (i + 1) : Int) - (start_time : Int)) > 5000 then
      some (false, [Call.dataAvailable, Call.delay 500, Call.millis, Call.StopMeasurement])
    else
      match waitLoop dataAvailable millis start_time fuel (i + 1) with
      | none => none
      | some (r, cs) => some (r, Call.dataAvailable :: Call.delay 500 :: Call.millis :: cs)

/-- Embedding of `read_rak12037`. `has_rak1906` is the global companion-sensor
flag at the time of the call. The result is `none` only when the polling loop
needs more than `fuel` iterations. -/
def read_rak12037 {F : Type} (fuel : Nat) (env : ReadEnv F) (has_rak1906 : Bool)
    (s : State F) : Option (State F) :=
  let start_time := env.millis 0
  match waitLoop env.dataAvailable env.millis start_time fuel 0 with
  | none => none
  | some (false, cs) =>
    some { s with calls := s.calls ++ Call.millis :: cs }
  | some (true, cs) =>
    let co2_reading := env.getCO2
    let temp_reading := env.getTemperature
    let humid_reading := env.getHumidity
    let s1 := { s with
      calls := s.calls ++ Call.millis :: cs ++ [Call.getCO2, Call.getTemperature, Call.getHumidity],
      g_solution_data :=
        s.g_solution_data ++ [LppEntry.addConcentration Channel.LPP_CHANNEL_CO2_2 co2_reading] }
    let s2 :=
      if !has_rak1906 then
        { s1 with g_solution_data := s1.g_solution_data ++
            [LppEntry.addTemperature Channel.LPP_CHANNEL_CO2_Temp_2 temp_reading,
             LppEntry.addRelativeHumidity Channel.LPP_CHANNEL_CO2_HUMID_2 humid_reading] }
      else
        { s1 with
          _last_bme_temp := temp_reading,
          _last_bme_humid := humid_reading,
          _has_last_bme_values := true }
    some { s2 with calls := s2.calls ++ [Call.StopMeasurement] }

/-- Embedding of `get_rak12037_values`. The result pairs the new state with
`(values[0], values[1])`. The type of `t_h_discard_counter` is declared outside
the two source files: `counterBits` is its number of value bits and the
increment is taken modulo `2 ^ counterBits`. -/
def get_rak12037_values {F : Type} [Zero F] (counterBits : Nat) (s : State F) :
    State F × (F × F) :=
  if s._has_last_bme_values then
    let s1 := { s with t_h_discard_counter := (s.t_h_discard_counter + 1) % 2 ^ counterBits }
    let s2 :=
      if s1.t_h_discard_counter = 9 then
        { s1 with t_h_discard_counter := 0, _has_last_bme_values := false }
      else s1
    (s2, (s2._last_bme_temp, s2._last_bme_humid))
  else
    (s, (0, 0))

/-- States the module can be in: any state with an invalid cache and a discard
counter of 0 is initial, and every returning call of `read_rak12037` (with any
hardware answers and either value of `has_rak1906`) or of
`get_rak12037_values` leads from a reachable state to a reachable state. -/
inductive Reachable {F : Type} [Zero F] (counterBits : Nat) : State F → Prop
  | init (s : State F) (hvalid : s._has_last_bme_values = false)
      (hcounter : s.t_h_discard_counter = 0) : Reachable counterBits s
  | read (s t : State F) (fuel : Nat) (env : ReadEnv F) (has_rak1906 : Bool)
      (hs : Reachable counterBits s) (hstep : read_rak12037 fuel env has_rak1906 s = some t) :
      Reachable counterBits t
  | get (s : State F) (hs : Reachable counterBits s) :
      Reachable counterBits (get_rak12037_values counterBits s).1

/-- State after `n` consecutive calls of `get_rak12037_values`. -/
def getTimes {F : Type} [Zero F] (counterBits : Nat) : Nat → State F → State F
  | 0, s => s
  | n + 1, s => getTimes counterBits n (get_rak12037_values counterBits s).1

/-- The pair `(values[0], values[1])` written by the `n`-th of `n` consecutive
calls of `get_rak12037_values` (`n` counted from 1). -/
def nthValues {F : Type} [Zero F] (counterBits : Nat) (n : Nat) (s : State F) : F × F :=
  (get_rak12037_values counterBits (getTimes counterBits (n - 1) s)).2

/-- Clock condition of the polling loop: every `delay(500)`, which separates two
consecutive readings of `millis()`, advances the clock by at least 500 ms. -/
def DelayAdvances (millis : Nat → Nat) : Prop :=
  ∀ i, millis i + 500 ≤ millis (i + 1)

/-- A data-ready flag that becomes set `T` ms after entry and stays set: the
`i`-th evaluation of `dataAvailable()` is made at the `i`-th reading of the
clock and sees the flag when at least `T` ms have elapsed. -/
def flagSetAt (millis : Nat → Nat) (T : Nat) : Nat → Bool :=
  fun i => decide (millis 0 + T ≤ millis i)

/-! ### Concrete inputs used in the examples -/

/-- The cache before any sample was stored, with an empty payload. -/
def initState : State ℚ :=
  { _last_bme_temp := 0, _last_bme_humid := 0, _has_last_bme_values := false,
    t_h_discard_counter := 0, g_solution_data := [], calls := [] }

/-- A fresh sample: valid cache holding 22.5 °C and 48 %, counter 0. -/
def freshSample : State ℚ :=
  { _last_bme_temp := 22.5, _last_bme_humid := 48, _has_last_bme_values := true,
    t_h_discard_counter := 0, g_solution_data := [], calls := [] }

/-- The state after one data-ready `read_rak12037` with companion sensor from
`initState`: the scenario CO2 = 415 ppm, 22.5 °C, 48 %. -/
def storedSample : State ℚ :=
  { _last_bme_temp := 22.5, _last_bme_humid := 48, _has_last_bme_values := true,
    t_h_discard_counter := 0,
    g_solution_data := [LppEntry.addConcentration Channel.LPP_CHANNEL_CO2_2 415],
    calls := [Call.millis, Call.dataAvailable, Call.getCO2, Call.getTemperature,
      Call.getHumidity, Call.StopMeasurement] }

/-- A clock on which every `delay(500)` takes exactly 500 ms. -/
def exactClock : Nat → Nat := fun i => 500 * i

/-- A clock on which every `delay(500)`, with the rest of the loop body, takes
501 ms. -/
def slowClock : Nat → Nat := fun i => 501 * i

/-- A sensor that has data at the first evaluation of `dataAvailable()` and
reads 415 ppm and the given temperature and humidity. -/
def readyEnv (temp humid : ℚ) : ReadEnv ℚ :=
  { dataAvailable := fun _ => true, millis := exactClock,
    getCO2 := 415, getTemperature := temp, getHumidity := humid }

/-- A sensor that never has data, on the slow clock. -/
def neverReadyEnv : ReadEnv ℚ :=
  { dataAvailable := fun _ => false, millis := slowClock,
    getCO2 := 415, getTemperature := 22.5, getHumidity := 48 }

/-- A sensor whose data-ready flag becomes set 4600 ms after entry, on the
slow clock. -/
def lateFlagEnv : ReadEnv ℚ :=
  { dataAvailable := flagSetAt slowClock 4600, millis := slowClock,
    getCO2 := 415, getTemperature := 22.5, getHumidity := 48 }

end RAK12037

namespace RAK1903

/-- Error codes of the OPT3001 library; `NO_ERROR` is 0. -/
abbrev OPT3001_ErrorCode := Int

/-- The success code of the OPT3001 library. -/
def NO_ERROR : OPT3001_ErrorCode := 0

/-- Arduino binary constant `B1100`. -/
def B1100 : Nat := 0b1100
/-- Arduino binary constant `B0`. -/
def B0 : Nat := 0b0
/-- Arduino binary constant `B1`. -/
def B1 : Nat := 0b1
/-- Arduino binary constant `B11`. -/
def B11 : Nat := 0b11

/-- The configuration register of the OPT3001. The driver assigns the four
named fields; `otherFields` stands for the remaining bits of the register,
which the driver never assigns. -/
structure OPT3001_Config where
  RangeNumber : Nat
  ConvertionTime : Nat
  Latch : Nat
  ModeOfConversionOperation : Nat
  otherFields : Nat
  deriving DecidableEq

/-- What `opt3001.readResult()` returns: the lux value and the error code. -/
structure OPT3001 where
  lux : ℚ
  error : OPT3001_ErrorCode
  deriving DecidableEq

/-- Globals of the light module: the configuration `newConfig`, the arguments
of the `opt3001.writeConfig` calls made so far (the last one is the
configuration last written to the device) and the telemetry payload. -/
structure LightState where
  newConfig : OPT3001_Config
  written : List OPT3001_Config
  g_solution_data : List (LppEntry ℚ)
  deriving DecidableEq

/-- The conversion `(uint16_t)x` of a floating-point value: the fractional part
is discarded (rounding toward zero). The result is a value of `uint16_t`; when
the integer part is outside the range of `uint16_t`, where C++ leaves the
conversion undefined, it is taken modulo `2 ^ 16`. -/
def toUint16 (x : ℚ) : Nat :=
  ((Int.tdiv x.num (x.den : Int)) % 65536).toNat

/-- Embedding of `init_rak1903`; `beginResult` is what `opt3001.begin` returns
and `writeResult` what `opt3001.writeConfig` returns when it is called. -/
def init_rak1903 (beginResult writeResult : OPT3001_ErrorCode) (s : LightState) : Bool × LightState :=
  if beginResult ≠ NO_ERROR then
    (false, s)
  else
    let newConfig := { s.newConfig with
      RangeNumber := B1100,
      ConvertionTime := B0,
      Latch := B1,
      ModeOfConversionOperation := B11 }
    let s1 := { s with newConfig := newConfig, written := s.written ++ [newConfig] }
    let errorConfig := writeResult
    if errorConfig ≠ NO_ERROR then
      (false, s1)
    else
      (true, s1)

/-- Embedding of `read_rak1903`; `result` is what `opt3001.readResult()` returns. -/
def read_rak1903 (result : OPT3001) (s : LightState) : LightState :=
  if result.error = NO_ERROR then
    let light_int := toUint16 result.lux
    { s with g_solution_data :=
        s.g_solution_data ++ [LppEntry.addLuminosity Channel.LPP_CHANNEL_LIGHT light_int] }
  else
    s

/-- Embedding of `startup_rak1903`; the result of `writeConfig` is only logged. -/
def startup_rak1903 (_writeResult : OPT3001_ErrorCode) (s : LightState) : LightState :=
  let newConfig := { s.newConfig with
    RangeNumber := 0b1100,
    ConvertionTime := 0b0,
    Latch := 0b1,
    ModeOfConversionOperation := 0b11 }
  { s with newConfig := newConfig, written := s.written ++ [newConfig] }

/-- Embedding of `shutdown_rak1903`; the result of `writeConfig` is only logged. -/
def shutdown_rak1903 (_writeResult : OPT3001_ErrorCode) (s : LightState) : LightState :=
  let newConfig := { s.newConfig with
    RangeNumber := 0b1100,
    ConvertionTime := 0b0,
    Latch := 0b1,
    ModeOfConversionOperation := 0b00 }
  { s with newConfig := newConfig, written := s.written ++ [newConfig] }

/-- One call made on the light module by the rest of the application, with the
answers of the device during the call. -/
inductive Op
  | init (beginResult writeResult : OPT3001_ErrorCode)
  | read (result : OPT3001)
  | startup (writeResult : OPT3001_ErrorCode)
  | shutdown (writeResult : OPT3001_ErrorCode)

/-- State after one call. -/
def step (s : LightState) : Op → LightState
  | .init b w => (init_rak1903 b w s).2
  | .read r => read_rak1903 r s
  | .startup w => startup_rak1903 w s
  | .shutdown w => shutdown_rak1903 w s

/-- State after a sequence of calls. -/
def run (s : LightState) (ops : List Op) : LightState :=
  ops.foldl step s

/-! ### Concrete inputs used in the examples -/

/-- The light module before any call: zero-initialised `newConfig`, nothing
written, empty payload. -/
def lightInit : LightState :=
  { newConfig := { RangeNumber := 0, ConvertionTime := 0, Latch := 0,
                   ModeOfConversionOperation := 0, otherFields := 0 },
    written := [], g_solution_data := [] }

end RAK1903

end RUI3

namespace RUI3

namespace RAK12037

variable {F : Type} [Zero F]

/-! ## The cache of temperature and humidity -/

/-- A counter of at least 4 bits has at least 16 values. -/
theorem sixteen_le_two_pow {w : Nat} (hw : 4 ≤ w) : 16 ≤ 2 ^ w :=
  calc 16 = 2 ^ 4 := by norm_num
    _ ≤ 2 ^ w := Nat.pow_le_pow_right (by norm_num) hw

/-- A retrieval from a valid cache whose counter is below 8 only increments
the counter. -/
theorem get_valid_lt {w : Nat} (hw : 4 ≤ w) (s : State F)
    (hv : s._has_last_bme_values = true) (hc : s.t_h_discard_counter < 8) :
    get_rak12037_values w s =
      ({ s with t_h_discard_counter := s.t_h_discard_counter + 1 },
        (s._last_bme_temp, s._last_bme_humid)) := by
  have h16 := sixteen_le_two_pow hw
  have hmod : (s.t_h_discard_counter + 1) % 2 ^ w = s.t_h_discard_counter + 1 :=
    Nat.mod_eq_of_lt (by omega)
  have hne : s.t_h_discard_counter + 1 ≠ 9 := by omega
  simp [get_rak12037_values, hv, hmod, hne]

/-- A retrieval from a valid cache whose counter is 8 invalidates the cache and
resets the counter. -/
theorem get_valid_eight {w : Nat} (hw : 4 ≤ w) (s : State F)
    (hv : s._has_last_bme_values = true) (hc : s.t_h_discard_counter = 8) :
    get_rak12037_values w s =
      ({ s with t_h_discard_counter := 0, _has_last_bme_values := false },
        (s._last_bme_temp, s._last_bme_humid)) := by
  have h16 := sixteen_le_two_pow hw
  have hmod : (8 + 1) % 2 ^ w = 9 := Nat.mod_eq_of_lt (by omega)
  simp [get_rak12037_values, hv, hc, hmod]

/-- A retrieval from an invalid cache writes zeros and changes nothing. -/
theorem get_invalid (w : Nat) (s : State F) (hv : s._has_last_bme_values = false) :
    get_rak12037_values w s = (s, (0, 0)) := by
  simp [get_rak12037_values, hv]

/-- Unfolding `getTimes` at the last retrieval. -/
theorem getTimes_succ (w : Nat) (n : Nat) (s : State F) :
    getTimes w (n + 1) s = (get_rak12037_values w (getTimes w n s)).1 := by
  induction n generalizing s with
  | zero => rfl
  | succ n ih =>
    show getTimes w (n + 1) (get_rak12037_values w s).1 = _
    rw [ih]
    rfl

/-- From a valid cache with counter `c`, `k` retrievals with `c + k ≤ 8` only
move the counter to `c + k`. -/
theorem getTimes_valid {w : Nat} (hw : 4 ≤ w) (s : State F)
    (hv : s._has_last_bme_values = true) (k : Nat) (hk : s.t_h_discard_counter + k ≤ 8) :
    getTimes w k s = { s with t_h_discard_counter := s.t_h_discard_counter + k } := by
  induction k with
  | zero => rfl
  | succ k ih =>
    have hlt : s.t_h_discard_counter + k < 8 := by omega
    rw [getTimes_succ, ih (by omega),
      get_valid_lt hw { s with t_h_discard_counter := s.t_h_discard_counter + k } hv hlt]
    simp [Nat.add_assoc]

/-- From a valid cache with counter `c ≤ 8`, the retrieval number `9 - c`
invalidates the cache and resets the counter. -/
theorem getTimes_expire {w : Nat} (hw : 4 ≤ w) (s : State F)
    (hv : s._has_last_bme_values = true) (hc : s.t_h_discard_counter ≤ 8) :
    getTimes w (9 - s.t_h_discard_counter) s =
      { s with t_h_discard_counter := 0, _has_last_bme_values := false } := by
  have hk : 9 - s.t_h_discard_counter = (8 - s.t_h_discard_counter) + 1 := by omega
  rw [hk, getTimes_succ, getTimes_valid hw s hv (8 - s.t_h_discard_counter) (by omega)]
  have h8 : s.t_h_discard_counter + (8 - s.t_h_discard_counter) = 8 := by omega
  rw [get_valid_eight hw { s with t_h_discard_counter := s.t_h_discard_counter +
    (8 - s.t_h_discard_counter) } hv h8]

/-- From a valid cache with counter `c ≤ 8`, each of the next `9 - c`
retrievals writes the cached pair. -/
theorem nthValues_valid {w : Nat} (hw : 4 ≤ w) (s : State F)
    (hv : s._has_last_bme_values = true) (n : Nat) (h1 : 1 ≤ n)
    (hn : s.t_h_discard_counter + n ≤ 9) :
    nthValues w n s = (s._last_bme_temp, s._last_bme_humid) := by
  unfold nthValues
  rw [getTimes_valid hw s hv (n - 1) (by omega)]
  by_cases h8 : s.t_h_discard_counter + (n - 1) < 8
  · rw [get_valid_lt hw { s with t_h_discard_counter := s.t_h_discard_counter + (n - 1) } hv h8]
  · have h8eq : s.t_h_discard_counter + (n - 1) = 8 := by omega
    rw [get_valid_eight hw { s with t_h_discard_counter := s.t_h_discard_counter + (n - 1) }
      hv h8eq]

/-- C1: from a cache that is valid with stored pair (t, h) and discard counter
0, each of the calls 1 to 9 of ten consecutive `get_rak12037_values` calls
writes (t, h), the cache is still valid after each of the calls 1 to 8, the
9th call leaves it invalid with the counter at 0, and the 10th call writes
(0, 0). -/
theorem get_rak12037_values_ten_calls {w : Nat} (hw : 4 ≤ w) (s : State F)
    (hv : s._has_last_bme_values = true) (hc : s.t_h_discard_counter = 0) :
    (∀ n, 1 ≤ n → n ≤ 9 → nthValues w n s = (s._last_bme_temp, s._last_bme_humid)) ∧
    (∀ n, 1 ≤ n → n ≤ 8 → (getTimes w n s)._has_last_bme_values = true) ∧
    (getTimes w 9 s)._has_last_bme_values = false ∧
    (getTimes w 9 s).t_h_discard_counter = 0 ∧
    nthValues w 10 s = (0, 0) := by
  have h9 : getTimes w 9 s = { s with t_h_discard_counter := 0, _has_last_bme_values := false } := by
    have h := getTimes_expire hw s hv (by omega)
    rwa [hc] at h
  refine ⟨?_, ?_, ?_, ?_, ?_⟩
  · intro n h1 hn
    exact nthValues_valid hw s hv n h1 (by omega)
  · intro n _ hn
    rw [getTimes_valid hw s hv n (by omega)]
    exact hv
  · rw [h9]
  · rw [h9]
  · show (get_rak12037_values w (getTimes w 9 s)).2 = (0, 0)
    rw [h9, get_invalid w _ rfl]

/-- The ten calls on the fresh sample (22.5, 48) with an 8-bit counter. -/
theorem get_rak12037_values_ten_calls_witness :
    (∀ n, 1 ≤ n → n ≤ 9 → nthValues 8 n freshSample = (22.5, 48)) ∧
    (∀ n, 1 ≤ n → n ≤ 8 → (getTimes 8 n freshSample)._has_last_bme_values = true) ∧
    (getTimes 8 9 freshSample)._has_last_bme_values = false ∧
    (getTimes 8 9 freshSample).t_h_discard_counter = 0 ∧
    nthValues 8 10 freshSample = (0, 0) :=
  get_rak12037_values_ten_calls (by decide) freshSample rfl rfl

/-! ## The polling loop -/

/-- Under `DelayAdvances` the `i`-th reading of the clock is at least
`500 * i` ms after the first. -/
theorem millis_ge {millis : Nat → Nat} (hadv : DelayAdvances millis) (i : Nat) :
    millis 0 + 500 * i ≤ millis i := by
  induction i with
  | zero => simp
  | succ i ih =>
    have := hadv i
    omega

/-- Under `DelayAdvances` the readings of the clock are monotone. -/
theorem millis_mono {millis : Nat → Nat} (hadv : DelayAdvances millis) {i j : Nat}
    (hij : i ≤ j) : millis i ≤ millis j := by
  induction j with
  | zero =>
    have : i = 0 := by omega
    subst this
    exact le_refl _
  | succ j ih =>
    by_cases h : i = j + 1
    · subst h
      exact le_refl _
    · have := ih (by omega)
      have := hadv j
      omega

/-- The exact clock satisfies the clock condition. -/
theorem exactClock_advances : DelayAdvances exactClock := fun i => by
  simp only [exactClock]; omega

/-- The slow clock satisfies the clock condition. -/
theorem slowClock_advances : DelayAdvances slowClock := fun i => by
  simp only [slowClock]; omega

/-- The polling loop, entered for iteration `i ≤ 10` at an elapsed time of at
most 5000 ms with at least `11 - i` iterations of fuel, returns. It evaluates
`dataAvailable()` and calls `delay(500)` at most `11 - i` times each, issues
`StopMeasurement` exactly when it times out, and it leaves through the
data-ready exit exactly when some evaluation `k ≥ i` of `dataAvailable()`
made at an elapsed time of at most 5000 ms is true. -/
theorem waitLoop_spec (dataAvailable : Nat → Bool) (millis : Nat → Nat)
    (hadv : DelayAdvances millis) (d : Nat) :
    ∀ (i fuel : Nat), i + d = 10 → 11 - i ≤ fuel → millis i ≤ millis 0 + 5000 →
      ∃ b cs, waitLoop dataAvailable millis (millis 0) fuel i = some (b, cs) ∧
        cs.count Call.dataAvailable ≤ 11 - i ∧
        cs.count (Call.delay 500) ≤ 11 - i ∧
        cs.count Call.StopMeasurement = (if b then 0 else 1) ∧
        (b = true ↔ ∃ k, i ≤ k ∧ dataAvailable k = true ∧ millis k ≤ millis 0 + 5000) := by
  induction d with
  | zero =>
    intro i fuel hi hf hentry
    obtain ⟨f, rfl⟩ : ∃ f, fuel = f + 1 := ⟨fuel - 1, by omega⟩
    have h11 := millis_ge hadv 11
    have hi10 : i = 10 := by omega
    subst hi10
    cases hav : dataAvailable 10 with
    | true =>
      refine ⟨true, [Call.dataAvailable], by simp [waitLoop, hav], by decide, by decide,
        by decide, ?_⟩
      simp only [true_iff]
      exact ⟨10, le_refl _, hav, hentry⟩
    | false =>
      have hto : ((millis (10 + 1) : Int) - (millis 0 : Int)) > 5000 := by
        simp only [show 10 + 1 = 11 from rfl]
        omega
      refine ⟨false, [Call.dataAvailable, Call.delay 500, Call.millis, Call.StopMeasurement],
        by simp [waitLoop, hav, hto], by decide, by decide, by decide, ?_⟩
      simp only [Bool.false_eq_true, false_iff, not_exists, not_and]
      intro k hk hk1 hk2
      by_cases hk10 : k = 10
      · subst hk10
        rw [hav] at hk1
        exact absurd hk1 (by decide)
      · have := millis_mono hadv (show 11 ≤ k by omega)
        omega
  | succ d ih =>
    intro i fuel hi hf hentry
    obtain ⟨f, rfl⟩ : ∃ f, fuel = f + 1 := ⟨fuel - 1, by omega⟩
    cases hav : dataAvailable i with
    | true =>
      refine ⟨true, [Call.dataAvailable], by simp [waitLoop, hav], ?_, ?_, by decide, ?_⟩
      · simp; omega
      · simp
      · simp only [true_iff]
        exact ⟨i, le_refl _, hav, hentry⟩
    | false =>
      by_cases hto : ((millis (i + 1) : Int) - (millis 0 : Int)) > 5000
      · refine ⟨false, [Call.dataAvailable, Call.delay 500, Call.millis, Call.StopMeasurement],
          by simp [waitLoop, hav, hto], ?_, ?_, by decide, ?_⟩
        · simp; omega
        · simp; omega
        · simp only [Bool.false_eq_true, false_iff, not_exists, not_and]
          intro k hk hk1 hk2
          by_cases hki : k = i
          · subst hki
            rw [hav] at hk1
            exact absurd hk1 (by decide)
          · have := millis_mono hadv (show i + 1 ≤ k by omega)
            omega
      · obtain ⟨b, cs, hrun, hc1, hc2, hc3, hiff⟩ :=
          ih (i + 1) f (by omega) (by omega) (by omega)
        refine ⟨b, Call.dataAvailable :: Call.delay 500 :: Call.millis :: cs,
          by simp [waitLoop, hav, hto, hrun], ?_, ?_, ?_, ?_⟩
        · simp; omega
        · simp; omega
        · simpa using hc3
        · rw [hiff]
          constructor
          · rintro ⟨k, hk, hk1, hk2⟩
            exact ⟨k, by omega, hk1, hk2⟩
          · rintro ⟨k, hk, hk1, hk2⟩
            refine ⟨k, ?_, hk1, hk2⟩
            by_contra hlt
            have hki : k = i := by omega
            subst hki
            rw [hav] at hk1
            exact absurd hk1 (by decide)

/-- More fuel does not change the result of a polling loop that returns. -/
theorem waitLoop_fuel_mono (dataAvailable : Nat → Bool) (millis : Nat → Nat) (start_time : Nat)
    (fuel : Nat) : ∀ (i extra : Nat) (r : Bool × List Call),
      waitLoop dataAvailable millis start_time fuel i = some r →
      waitLoop dataAvailable millis start_time (fuel + extra) i = some r := by
  induction fuel with
  | zero => intro i extra r h; simp [waitLoop] at h
  | succ f ih =>
    intro i extra r h
    have hfe : f + 1 + extra = (f + extra) + 1 := by omega
    rw [hfe]
    unfold waitLoop at h ⊢
    by_cases hav : dataAvailable i = true
    · simpa [hav] using h
    · by_cases hto : ((millis (i + 1) : Int) - (start_time : Int)) > 5000
      · simpa [hav, hto] using h
      · simp only [hav, hto, if_false, Bool.false_eq_true] at h ⊢
        cases hrec : waitLoop dataAvailable millis start_time f (i + 1) with
        | none => simp [hrec] at h
        | some q =>
          rw [ih (i + 1) extra q hrec]
          simpa [hrec] using h

/-- Under the clock condition 11 iterations of fuel are enough, and more fuel
gives the same result. -/
theorem waitLoop_fuel_irrelevant (dataAvailable : Nat → Bool) (millis : Nat → Nat)
    (hadv : DelayAdvances millis) (fuel : Nat) (hfuel : 11 ≤ fuel) :
    waitLoop dataAvailable millis (millis 0) fuel 0 =
      waitLoop dataAvailable millis (millis 0) 11 0 := by
  obtain ⟨b, cs, hrun, _⟩ :=
    waitLoop_spec dataAvailable millis hadv 10 0 11 (by omega) (by omega) (by omega)
  have h := waitLoop_fuel_mono dataAvailable millis (millis 0) 11 0 (fuel - 11) (b, cs) hrun
  have hf : 11 + (fuel - 11) = fuel := by omega
  rw [hf] at h
  rw [h, hrun]

/-! ## Reading the sensor -/

/-- What `read_rak12037` does when the polling loop times out. -/
theorem read_of_timeout {G : Type} (fuel : Nat) (env : ReadEnv G) (has_rak1906 : Bool)
    (s : State G) (cs : List Call)
    (h : waitLoop env.dataAvailable env.millis (env.millis 0) fuel 0 = some (false, cs)) :
    read_rak12037 fuel env has_rak1906 s = some { s with calls := s.calls ++ Call.millis :: cs } := by
  simp [read_rak12037, h]

/-- What `read_rak12037` does on the data-ready path without companion sensor. -/
theorem read_of_ready_alone {G : Type} (fuel : Nat) (env : ReadEnv G)
    (s : State G) (cs : List Call)
    (h : waitLoop env.dataAvailable env.millis (env.millis 0) fuel 0 = some (true, cs)) :
    read_rak12037 fuel env false s = some { s with
      calls := s.calls ++ Call.millis :: cs ++
        [Call.getCO2, Call.getTemperature, Call.getHumidity] ++ [Call.StopMeasurement],
      g_solution_data := s.g_solution_data ++
        [LppEntry.addConcentration Channel.LPP_CHANNEL_CO2_2 env.getCO2] ++
        [LppEntry.addTemperature Channel.LPP_CHANNEL_CO2_Temp_2 env.getTemperature,
         LppEntry.addRelativeHumidity Channel.LPP_CHANNEL_CO2_HUMID_2 env.getHumidity] } := by
  simp [read_rak12037, h]

/-- What `read_rak12037` does on the data-ready path with companion sensor. -/
theorem read_of_ready_companion {G : Type} (fuel : Nat) (env : ReadEnv G)
    (s : State G) (cs : List Call)
    (h : waitLoop env.dataAvailable env.millis (env.millis 0) fuel 0 = some (true, cs)) :
    read_rak12037 fuel env true s = some { s with
      calls := s.calls ++ Call.millis :: cs ++
        [Call.getCO2, Call.getTemperature, Call.getHumidity] ++ [Call.StopMeasurement],
      g_solution_data := s.g_solution_data ++
        [LppEntry.addConcentration Channel.LPP_CHANNEL_CO2_2 env.getCO2],
      _last_bme_temp := env.getTemperature,
      _last_bme_humid := env.getHumidity,
      _has_last_bme_values := true } := by
  simp [read_rak12037, h]

/-- C3: a `read_rak12037` call on the data-ready path appends, when
`has_rak1906` is false, exactly the three entries CO2, temperature, humidity in
this order and leaves the cached pair and the valid flag unchanged; when
`has_rak1906` is true it appends the CO2 entry only, stores the temperature and
the humidity as the cached pair and sets the valid flag. -/
theorem read_rak12037_data_ready_entries {G : Type} (fuel : Nat) (env : ReadEnv G)
    (s : State G) (cs : List Call)
    (hready : waitLoop env.dataAvailable env.millis (env.millis 0) fuel 0 = some (true, cs)) :
    (∃ t, read_rak12037 fuel env false s = some t ∧
      t.g_solution_data = s.g_solution_data ++
        [LppEntry.addConcentration Channel.LPP_CHANNEL_CO2_2 env.getCO2,
         LppEntry.addTemperature Channel.LPP_CHANNEL_CO2_Temp_2 env.getTemperature,
         LppEntry.addRelativeHumidity Channel.LPP_CHANNEL_CO2_HUMID_2 env.getHumidity] ∧
      t._last_bme_temp = s._last_bme_temp ∧ t._last_bme_humid = s._last_bme_humid ∧
      t._has_last_bme_values = s._has_last_bme_values) ∧
    (∃ t, read_rak12037 fuel env true s = some t ∧
      t.g_solution_data = s.g_solution_data ++
        [LppEntry.addConcentration Channel.LPP_CHANNEL_CO2_2 env.getCO2] ∧
      t._last_bme_temp = env.getTemperature ∧ t._last_bme_humid = env.getHumidity ∧
      t._has_last_bme_values = true) := by
  constructor
  · exact ⟨_, read_of_ready_alone fuel env s cs hready, by simp, rfl, rfl, rfl⟩
  · exact ⟨_, read_of_ready_companion fuel env s cs hready, rfl, rfl, rfl, rfl⟩

/-- The data-ready path on a sensor that has data at once, from the initial
state. -/
theorem read_rak12037_data_ready_entries_witness :
    waitLoop (readyEnv 22.5 48).dataAvailable (readyEnv 22.5 48).millis
        ((readyEnv 22.5 48).millis 0) 1 0 = some (true, [Call.dataAvailable]) ∧
    ((∃ t, read_rak12037 1 (readyEnv 22.5 48) false initState = some t ∧
      t.g_solution_data = initState.g_solution_data ++
        [LppEntry.addConcentration Channel.LPP_CHANNEL_CO2_2 415,
         LppEntry.addTemperature Channel.LPP_CHANNEL_CO2_Temp_2 22.5,
         LppEntry.addRelativeHumidity Channel.LPP_CHANNEL_CO2_HUMID_2 48] ∧
      t._last_bme_temp = initState._last_bme_temp ∧
      t._last_bme_humid = initState._last_bme_humid ∧
      t._has_last_bme_values = initState._has_last_bme_values) ∧
    (∃ t, read_rak12037 1 (readyEnv 22.5 48) true initState = some t ∧
      t.g_solution_data = initState.g_solution_data ++
        [LppEntry.addConcentration Channel.LPP_CHANNEL_CO2_2 415] ∧
      t._last_bme_temp = 22.5 ∧ t._last_bme_humid = 48 ∧
      t._has_last_bme_values = true)) :=
  ⟨rfl, read_rak12037_data_ready_entries 1 (readyEnv 22.5 48) initState [Call.dataAvailable] rfl⟩

/-- C4: when `dataAvailable()` is false at every evaluation made at an elapsed
time of at most 5000 ms, and every `delay(500)` advances the clock by at least
500 ms, `read_rak12037` returns with no payload entry appended, the cache
fields unchanged and exactly one `StopMeasurement` issued. -/
theorem read_rak12037_timeout {G : Type} (env : ReadEnv G) (has_rak1906 : Bool) (s : State G)
    (hadv : DelayAdvances env.millis)
    (hfalse : ∀ i, env.millis i ≤ env.millis 0 + 5000 → env.dataAvailable i = false)
    (fuel : Nat) (hfuel : 11 ≤ fuel) :
    ∃ cs, read_rak12037 fuel env has_rak1906 s = some { s with calls := s.calls ++ cs } ∧
      cs.count Call.StopMeasurement = 1 := by
  obtain ⟨b, cs, hrun, _, _, hstop, hiff⟩ :=
    waitLoop_spec env.dataAvailable env.millis hadv 10 0 fuel (by omega) (by omega) (by omega)
  cases b with
  | true =>
    obtain ⟨k, _, hk1, hk2⟩ := hiff.mp rfl
    rw [hfalse k hk2] at hk1
    exact absurd hk1 (by decide)
  | false =>
    refine ⟨Call.millis :: cs, read_of_timeout fuel env has_rak1906 s cs hrun, ?_⟩
    simpa using hstop

/-- A sensor that never has data, read on the slow clock over a fresh sample. -/
theorem read_rak12037_timeout_witness :
    DelayAdvances neverReadyEnv.millis ∧
    (∀ i, neverReadyEnv.millis i ≤ neverReadyEnv.millis 0 + 5000 →
      neverReadyEnv.dataAvailable i = false) ∧
    11 ≤ 11 ∧
    ∃ cs, read_rak12037 11 neverReadyEnv false freshSample =
        some { freshSample with calls := freshSample.calls ++ cs } ∧
      cs.count Call.StopMeasurement = 1 :=
  ⟨slowClock_advances, fun _ _ => rfl, le_refl 11,
    read_rak12037_timeout neverReadyEnv false freshSample slowClock_advances
      (fun _ _ => rfl) 11 (le_refl 11)⟩

/-- No reading of the slow clock lies between 4600 and 5000 ms after entry. -/
theorem slowClock_no_reading :
    ¬ ∃ k, slowClock 0 + 4600 ≤ slowClock k ∧ slowClock k ≤ slowClock 0 + 5000 := by
  rintro ⟨k, h1, h2⟩
  simp only [slowClock] at h1 h2
  omega

/-- C5 as stated fails: on a clock that every `delay(500)` advances by 501 ms,
a flag that becomes set 4600 ms after entry (before the 5000 ms ceiling) is not
seen by the evaluations made at 0, 501, ..., 4509 ms; the reading after the
tenth delay is 5010 ms, the call times out and appends no entry. -/
theorem read_rak12037_flag_missed :
    DelayAdvances lateFlagEnv.millis ∧
    lateFlagEnv.dataAvailable = flagSetAt lateFlagEnv.millis 4600 ∧ 4600 < 5000 ∧
    (waitLoop lateFlagEnv.dataAvailable lateFlagEnv.millis (lateFlagEnv.millis 0) 11 0).map
      Prod.fst = some false ∧
    (read_rak12037 11 lateFlagEnv true initState).map (fun t => t.g_solution_data) = some [] ∧
    (read_rak12037 11 lateFlagEnv false initState).map (fun t => t.g_solution_data) = some [] :=
  ⟨slowClock_advances, rfl, by decide, by decide, by decide, by decide⟩

/-- C5, amended: with a clock that every `delay(500)` advances by at least
500 ms and a data-ready flag that becomes set `T` ms after entry and stays set,
`read_rak12037` returns, and: if some reading of the clock lies between `T` and
5000 ms after entry (an evaluation of `dataAvailable()` is made once the flag
is set and not after the ceiling), the call takes the data-ready path and
appends exactly one CO2 concentration entry, on `LPP_CHANNEL_CO2_2`; if no
reading of the clock lies between `T` and 5000 ms after entry, the flag is not
seen, the call times out and appends no entry and leaves the cache unchanged. -/
theorem read_rak12037_flag_seen {G : Type} (millis : Nat → Nat) (T : Nat)
    (co2 : Nat) (temp humid : G) (has_rak1906 : Bool) (s : State G)
    (hadv : DelayAdvances millis) (fuel : Nat) (hfuel : 11 ≤ fuel) :
    ((∃ k, millis 0 + T ≤ millis k ∧ millis k ≤ millis 0 + 5000) →
      ∃ cs t added,
        waitLoop (flagSetAt millis T) millis (millis 0) fuel 0 = some (true, cs) ∧
        read_rak12037 fuel ⟨flagSetAt millis T, millis, co2, temp, humid⟩ has_rak1906 s =
          some t ∧
        t.g_solution_data = s.g_solution_data ++ added ∧
        added.filter LppEntry.isConcentration =
          [LppEntry.addConcentration Channel.LPP_CHANNEL_CO2_2 co2]) ∧
    ((¬ ∃ k, millis 0 + T ≤ millis k ∧ millis k ≤ millis 0 + 5000) →
      ∃ cs,
        waitLoop (flagSetAt millis T) millis (millis 0) fuel 0 = some (false, cs) ∧
        read_rak12037 fuel ⟨flagSetAt millis T, millis, co2, temp, humid⟩ has_rak1906 s =
          some { s with calls := s.calls ++ Call.millis :: cs } ∧
        cs.count Call.StopMeasurement = 1) := by
  obtain ⟨b, cs, hrun, _, _, hstop, hiff⟩ :=
    waitLoop_spec (flagSetAt millis T) millis hadv 10 0 fuel (by omega) (by omega) (by omega)
  constructor
  · rintro ⟨k, hset, hceil⟩
    have hb : b = true := hiff.mpr ⟨k, by omega, by simp [flagSetAt, hset], hceil⟩
    subst hb
    cases has_rak1906 with
    | false =>
      exact ⟨cs, _,
        [LppEntry.addConcentration Channel.LPP_CHANNEL_CO2_2 co2,
         LppEntry.addTemperature Channel.LPP_CHANNEL_CO2_Temp_2 temp,
         LppEntry.addRelativeHumidity Channel.LPP_CHANNEL_CO2_HUMID_2 humid], hrun,
        read_of_ready_alone fuel ⟨flagSetAt millis T, millis, co2, temp, humid⟩ s cs hrun,
        by simp, by simp [LppEntry.isConcentration]⟩
    | true =>
      exact ⟨cs, _, [LppEntry.addConcentration Channel.LPP_CHANNEL_CO2_2 co2], hrun,
        read_of_ready_companion fuel ⟨flagSetAt millis T, millis, co2, temp, humid⟩ s cs hrun,
        rfl, by simp [LppEntry.isConcentration]⟩
  · intro hno
    cases b with
    | true =>
      obtain ⟨k, _, hk1, hk2⟩ := hiff.mp rfl
      exact absurd ⟨k, by simpa [flagSetAt] using hk1, hk2⟩ hno
    | false =>
      exact ⟨cs, hrun,
        read_of_timeout fuel ⟨flagSetAt millis T, millis, co2, temp, humid⟩ has_rak1906 s cs hrun,
        by simpa using hstop⟩

/-- On the exact clock a flag set 4600 ms after entry is seen by the evaluation
made at 5000 ms; on the slow clock no reading lies between 4600 and 5000 ms and
the call times out. -/
theorem read_rak12037_flag_seen_witness :
    (DelayAdvances exactClock ∧ 11 ≤ 11 ∧
      (∃ k, exactClock 0 + 4600 ≤ exactClock k ∧ exactClock k ≤ exactClock 0 + 5000) ∧
      ∃ cs t added,
        waitLoop (flagSetAt exactClock 4600) exactClock (exactClock 0) 11 0 = some (true, cs) ∧
        read_rak12037 11 ⟨flagSetAt exactClock 4600, exactClock, 415, (22.5 : ℚ), 48⟩ true
          initState = some t ∧
        t.g_solution_data = initState.g_solution_data ++ added ∧
        added.filter LppEntry.isConcentration =
          [LppEntry.addConcentration Channel.LPP_CHANNEL_CO2_2 415]) ∧
    (DelayAdvances slowClock ∧
      (¬ ∃ k, slowClock 0 + 4600 ≤ slowClock k ∧ slowClock k ≤ slowClock 0 + 5000) ∧
      ∃ cs,
        waitLoop (flagSetAt slowClock 4600) slowClock (slowClock 0) 11 0 = some (false, cs) ∧
        read_rak12037 11 ⟨flagSetAt slowClock 4600, slowClock, 415, (22.5 : ℚ), 48⟩ true
          initState = some { initState with calls := initState.calls ++ Call.millis :: cs } ∧
        cs.count Call.StopMeasurement = 1) :=
  ⟨⟨exactClock_advances, le_refl 11, ⟨10, by decide, by decide⟩,
      (read_rak12037_flag_seen exactClock 4600 415 22.5 48 true initState exactClock_advances
        11 (le_refl 11)).1 ⟨10, by decide, by decide⟩⟩,
    ⟨slowClock_advances, slowClock_no_reading,
      (read_rak12037_flag_seen slowClock 4600 415 22.5 48 true initState slowClock_advances
        11 (le_refl 11)).2 slowClock_no_reading⟩⟩

/-- C9: when every `delay(500)` advances the clock by at least 500 ms,
`read_rak12037` returns, whatever the data-ready flag does, after at most 11
evaluations of `dataAvailable()` and at most 11 calls of `delay(500)`. -/
theorem read_rak12037_terminates {G : Type} (env : ReadEnv G) (has_rak1906 : Bool) (s : State G)
    (hadv : DelayAdvances env.millis) (fuel : Nat) (hfuel : 11 ≤ fuel) :
    ∃ t cs, read_rak12037 fuel env has_rak1906 s = some t ∧
      t.calls = s.calls ++ cs ∧
      cs.count Call.dataAvailable ≤ 11 ∧
      cs.count (Call.delay 500) ≤ 11 := by
  obtain ⟨b, cs, hrun, hc1, hc2, _, _⟩ :=
    waitLoop_spec env.dataAvailable env.millis hadv 10 0 fuel (by omega) (by omega) (by omega)
  cases b with
  | false =>
    refine ⟨_, Call.millis :: cs, read_of_timeout fuel env has_rak1906 s cs hrun, rfl, ?_, ?_⟩
    · simpa using hc1
    · simpa using hc2
  | true =>
    cases has_rak1906 with
    | false =>
      refine ⟨_, Call.millis :: cs ++ [Call.getCO2, Call.getTemperature, Call.getHumidity] ++
        [Call.StopMeasurement], read_of_ready_alone fuel env s cs hrun, ?_, ?_, ?_⟩
      · simp
      · simpa using hc1
      · simpa using hc2
    | true =>
      refine ⟨_, Call.millis :: cs ++ [Call.getCO2, Call.getTemperature, Call.getHumidity] ++
        [Call.StopMeasurement], read_of_ready_companion fuel env s cs hrun, ?_, ?_, ?_⟩
      · simp
      · simpa using hc1
      · simpa using hc2

/-- A sensor that never has data, on the slow clock: the call returns. -/
theorem read_rak12037_terminates_witness :
    DelayAdvances neverReadyEnv.millis ∧ 11 ≤ 11 ∧
    ∃ t cs, read_rak12037 11 neverReadyEnv true initState = some t ∧
      t.calls = initState.calls ++ cs ∧
      cs.count Call.dataAvailable ≤ 11 ∧
      cs.count (Call.delay 500) ≤ 11 :=
  ⟨slowClock_advances, le_refl 11,
    read_rak12037_terminates neverReadyEnv true initState slowClock_advances 11 (le_refl 11)⟩

/-! ## Reachable states of the cache -/

/-- A returning `read_rak12037` keeps the discard counter, and keeps an
invalid cache only if it was invalid before. -/
theorem read_counter_valid {G : Type} (fuel : Nat) (env : ReadEnv G) (has_rak1906 : Bool)
    (s t : State G) (h : read_rak12037 fuel env has_rak1906 s = some t) :
    t.t_h_discard_counter = s.t_h_discard_counter ∧
    (t._has_last_bme_values = false → s._has_last_bme_values = false) := by
  unfold read_rak12037 at h
  cases hw : waitLoop env.dataAvailable env.millis (env.millis 0) fuel 0 with
  | none => simp [hw] at h
  | some r =>
    obtain ⟨b, cs⟩ := r
    cases b <;> cases has_rak1906 <;> simp [hw] at h <;> subst h <;> simp

/-- The invariant of the cache: the discard counter is at most 8 and is 0
whenever the cache is invalid. -/
theorem reachable_invariant {w : Nat} (hw : 4 ≤ w) (s : State F) (hr : Reachable w s) :
    s.t_h_discard_counter ≤ 8 ∧
    (s._has_last_bme_values = false → s.t_h_discard_counter = 0) := by
  induction hr with
  | init s hvalid hcounter => exact ⟨by omega, fun _ => hcounter⟩
  | read s t fuel env has hs hstep ih =>
    obtain ⟨hc, hvv⟩ := read_counter_valid fuel env has s t hstep
    exact ⟨by omega, fun ht => by rw [hc]; exact ih.2 (hvv ht)⟩
  | get s hs ih =>
    cases hv : s._has_last_bme_values with
    | false =>
      rw [get_invalid w s hv]
      exact ih
    | true =>
      by_cases h8 : s.t_h_discard_counter < 8
      · rw [get_valid_lt hw s hv h8]
        exact ⟨by simp; omega, fun hf => by simp [hv] at hf⟩
      · have h8eq : s.t_h_discard_counter = 8 := by omega
        rw [get_valid_eight hw s hv h8eq]
        exact ⟨by simp, fun _ => rfl⟩

/-- The scenario of the specification: from the initial cache, a data-ready
read of 415 ppm, 22.5 °C and 48 % with companion sensor appends the CO2 entry
and leaves the cache valid with the pair stored and the counter at 0. -/
theorem read_scenario :
    read_rak12037 1 (readyEnv 22.5 48) true initState = some storedSample := rfl

/-- The state after the scenario read is reachable. -/
theorem reachable_storedSample : Reachable 8 storedSample :=
  Reachable.read initState storedSample 1 (readyEnv 22.5 48) true
    (Reachable.init initState rfl rfl) read_scenario

/-- Retrievals lead from reachable states to reachable states. -/
theorem reachable_getTimes (w : Nat) (n : Nat) (s : State F) (hr : Reachable w s) :
    Reachable w (getTimes w n s) := by
  induction n generalizing s with
  | zero => exact hr
  | succ n ih => exact ih _ (Reachable.get s hr)

/-- C10: in every reachable state the discard counter lies between 0 and 8 and
is 0 whenever the cache is invalid, and `get_rak12037_values` on an invalid
cache changes no field. -/
theorem discard_counter_invariant {w : Nat} (hw : 4 ≤ w) (s : State F) (hr : Reachable w s) :
    0 ≤ s.t_h_discard_counter ∧ s.t_h_discard_counter ≤ 8 ∧
    (s._has_last_bme_values = false → s.t_h_discard_counter = 0) ∧
    (s._has_last_bme_values = false → (get_rak12037_values w s).1 = s) := by
  obtain ⟨h8, h0⟩ := reachable_invariant hw s hr
  exact ⟨Nat.zero_le _, h8, h0, fun hv => by rw [get_invalid w s hv]⟩

/-- The invariant in the state after the scenario read and nine retrievals,
where the cache is invalid again. -/
theorem discard_counter_invariant_witness :
    4 ≤ 8 ∧ Reachable 8 (getTimes 8 9 storedSample) ∧
    (0 ≤ (getTimes 8 9 storedSample).t_h_discard_counter ∧
     (getTimes 8 9 storedSample).t_h_discard_counter ≤ 8 ∧
     ((getTimes 8 9 storedSample)._has_last_bme_values = false →
       (getTimes 8 9 storedSample).t_h_discard_counter = 0) ∧
     ((getTimes 8 9 storedSample)._has_last_bme_values = false →
       (get_rak12037_values 8 (getTimes 8 9 storedSample)).1 = getTimes 8 9 storedSample)) :=
  ⟨by decide, reachable_getTimes 8 9 storedSample reachable_storedSample,
    discard_counter_invariant (by decide) (getTimes 8 9 storedSample)
      (reachable_getTimes 8 9 storedSample reachable_storedSample)⟩

/-- What holds of a write into the cache in general: after a data-ready
`read_rak12037` with companion sensor, made when the discard counter is
`c ≤ 8`, the counter is still `c`, each of the next `9 - c` retrievals writes
the pair just stored, and retrieval number `9 - c` invalidates the cache and
resets the counter. -/
theorem read_then_get_window {w : Nat} (hw : 4 ≤ w) (fuel : Nat) (env : ReadEnv F)
    (s : State F) (cs : List Call) (hc : s.t_h_discard_counter ≤ 8)
    (hready : waitLoop env.dataAvailable env.millis (env.millis 0) fuel 0 = some (true, cs)) :
    ∃ t, read_rak12037 fuel env true s = some t ∧
      t._last_bme_temp = env.getTemperature ∧ t._last_bme_humid = env.getHumidity ∧
      t._has_last_bme_values = true ∧ t.t_h_discard_counter = s.t_h_discard_counter ∧
      (∀ n, 1 ≤ n → n ≤ 9 - s.t_h_discard_counter →
        nthValues w n t = (env.getTemperature, env.getHumidity)) ∧
      (∀ n, n < 9 - s.t_h_discard_counter → (getTimes w n t)._has_last_bme_values = true) ∧
      (getTimes w (9 - s.t_h_discard_counter) t)._has_last_bme_values = false ∧
      (getTimes w (9 - s.t_h_discard_counter) t).t_h_discard_counter = 0 := by
  refine ⟨_, read_of_ready_companion fuel env s cs hready, rfl, rfl, rfl, rfl, ?_, ?_, ?_, ?_⟩
  · intro n h1 hn
    exact nthValues_valid hw _ rfl n h1 (by simp only; omega)
  · intro n hn
    rw [getTimes_valid hw _ rfl n (by simp only; omega)]
  · have h := getTimes_expire hw { s with
      calls := s.calls ++ Call.millis :: cs ++
        [Call.getCO2, Call.getTemperature, Call.getHumidity] ++ [Call.StopMeasurement],
      g_solution_data := s.g_solution_data ++
        [LppEntry.addConcentration Channel.LPP_CHANNEL_CO2_2 env.getCO2],
      _last_bme_temp := env.getTemperature,
      _last_bme_humid := env.getHumidity,
      _has_last_bme_values := true } rfl hc
    rw [h]
  · have h := getTimes_expire hw { s with
      calls := s.calls ++ Call.millis :: cs ++
        [Call.getCO2, Call.getTemperature, Call.getHumidity] ++ [Call.StopMeasurement],
      g_solution_data := s.g_solution_data ++
        [LppEntry.addConcentration Channel.LPP_CHANNEL_CO2_2 env.getCO2],
      _last_bme_temp := env.getTemperature,
      _last_bme_humid := env.getHumidity,
      _has_last_bme_values := true } rfl hc
    rw [h]

/-- C2 fails on the code: `read_rak12037` does not reset the discard counter.
From the initial cache, after the sample (22.5, 48) was stored and retrieved
once, a data-ready read that stores (23, 50) leaves the counter at 1; the new
sample is written by the next 8 retrievals only, the 8th invalidates the cache
and the 9th writes (0, 0). -/
theorem read_rak12037_overwrite_keeps_counter :
    ∃ s1 s3, read_rak12037 1 (readyEnv 22.5 48) true initState = some s1 ∧
      read_rak12037 1 (readyEnv 23 50) true (get_rak12037_values 8 s1).1 = some s3 ∧
      s3._last_bme_temp = 23 ∧ s3._last_bme_humid = 50 ∧ s3._has_last_bme_values = true ∧
      s3.t_h_discard_counter = 1 ∧
      nthValues 8 8 s3 = (23, 50) ∧
      (getTimes 8 8 s3)._has_last_bme_values = false ∧
      (getTimes 8 8 s3).t_h_discard_counter = 0 ∧
      nthValues 8 9 s3 = (0, 0) :=
  ⟨storedSample, _, rfl, rfl, rfl, rfl, rfl, rfl, rfl, rfl, rfl, rfl⟩

end RAK12037

namespace RAK1903

/-! ## The light sensor -/

/-- For a non-negative rational, truncation toward zero is the floor. -/
theorem tdiv_eq_floor (x : ℚ) (h0 : 0 ≤ x) : Int.tdiv x.num (x.den : Int) = ⌊x⌋ := by
  rw [Rat.floor_def, Int.tdiv_eq_ediv (Rat.num_nonneg.mpr h0) (Int.natCast_nonneg _)]

/-- In the range of `uint16_t` the conversion is the integer part. -/
theorem toUint16_eq_floor (x : ℚ) (h0 : 0 ≤ x) (h1 : x < 65536) :
    toUint16 x = ⌊x⌋.toNat := by
  have hf0 : 0 ≤ ⌊x⌋ := Int.floor_nonneg.mpr h0
  have hf1 : ⌊x⌋ < 65536 := by
    have := Int.floor_le x
    have h : ((⌊x⌋ : Int) : ℚ) < ((65536 : Int) : ℚ) := by push_cast; linarith
    exact_mod_cast h
  unfold toUint16
  rw [tdiv_eq_floor x h0, Int.emod_eq_of_lt hf0 hf1]

/-- The conversion always yields a value of `uint16_t`. -/
theorem toUint16_lt (x : ℚ) : toUint16 x < 65536 := by
  unfold toUint16
  have h := Int.emod_lt_of_pos (Int.tdiv x.num (x.den : Int)) (show (0 : Int) < 65536 by decide)
  have h0 := Int.emod_nonneg (Int.tdiv x.num (x.den : Int)) (show (65536 : Int) ≠ 0 by decide)
  omega

/-- What `read_rak1903` appends, in any state. -/
theorem read_rak1903_payload (r : OPT3001) (s : LightState) :
    (read_rak1903 r s).g_solution_data = s.g_solution_data ++
      (if r.error = NO_ERROR then
        [LppEntry.addLuminosity Channel.LPP_CHANNEL_LIGHT (toUint16 r.lux)] else []) := by
  unfold read_rak1903
  split <;> simp

/-- C6 as stated fails: after an `init_rak1903` that returns false because
`writeConfig` reported the error -10, a `read_rak1903` whose result has
`NO_ERROR` and 100 lux appends a luminosity entry. -/
theorem read_rak1903_after_failed_init :
    (init_rak1903 NO_ERROR (-10) lightInit).1 = false ∧
    (init_rak1903 NO_ERROR (-10) lightInit).2.g_solution_data = [] ∧
    (read_rak1903 { lux := 100, error := NO_ERROR }
        (init_rak1903 NO_ERROR (-10) lightInit).2).g_solution_data =
      [LppEntry.addLuminosity Channel.LPP_CHANNEL_LIGHT 100] := by
  decide

/-- C6, amended: after an `init_rak1903` that returns false because
`writeConfig` reported an error, and whatever calls follow, a `read_rak1903`
call appends no payload entry when `readResult()` reports an error, and
exactly one luminosity entry when it reports `NO_ERROR`. -/
theorem read_rak1903_after_failed_init_spec (s : LightState) (writeResult : OPT3001_ErrorCode)
    (hw : writeResult ≠ NO_ERROR) (ops : List Op) (r : OPT3001) :
    (init_rak1903 NO_ERROR writeResult s).1 = false ∧
    (r.error ≠ NO_ERROR →
      (read_rak1903 r (run (init_rak1903 NO_ERROR writeResult s).2 ops)).g_solution_data =
        (run (init_rak1903 NO_ERROR writeResult s).2 ops).g_solution_data) ∧
    (r.error = NO_ERROR →
      (read_rak1903 r (run (init_rak1903 NO_ERROR writeResult s).2 ops)).g_solution_data =
        (run (init_rak1903 NO_ERROR writeResult s).2 ops).g_solution_data ++
          [LppEntry.addLuminosity Channel.LPP_CHANNEL_LIGHT (toUint16 r.lux)]) := by
  refine ⟨by simp [init_rak1903, hw], ?_, ?_⟩
  · intro he
    rw [read_rak1903_payload, if_neg he, List.append_nil]
  · intro he
    rw [read_rak1903_payload, if_pos he]

/-- After a failed init, a shutdown and a startup, a read that reports the
error -20 appends nothing. -/
theorem read_rak1903_after_failed_init_spec_witness :
    (-10 : OPT3001_ErrorCode) ≠ NO_ERROR ∧
    (init_rak1903 NO_ERROR (-10) lightInit).1 = false ∧
    ((-20 : OPT3001_ErrorCode) ≠ NO_ERROR →
      (read_rak1903 { lux := 100, error := -20 }
        (run (init_rak1903 NO_ERROR (-10) lightInit).2
          [Op.shutdown 0, Op.startup 0])).g_solution_data =
        (run (init_rak1903 NO_ERROR (-10) lightInit).2
          [Op.shutdown 0, Op.startup 0]).g_solution_data) ∧
    ((-20 : OPT3001_ErrorCode) = NO_ERROR →
      (read_rak1903 { lux := 100, error := -20 }
        (run (init_rak1903 NO_ERROR (-10) lightInit).2
          [Op.shutdown 0, Op.startup 0])).g_solution_data =
        (run (init_rak1903 NO_ERROR (-10) lightInit).2
          [Op.shutdown 0, Op.startup 0]).g_solution_data ++
          [LppEntry.addLuminosity Channel.LPP_CHANNEL_LIGHT (toUint16 100)]) :=
  ⟨by decide, read_rak1903_after_failed_init_spec lightInit (-10) (by decide)
    [Op.shutdown 0, Op.startup 0] { lux := 100, error := -20 }⟩

/-- C7: whatever `newConfig` was before, `shutdown_rak1903` followed by
`startup_rak1903` leaves `newConfig`, which is also the configuration last
written to the device, equal in the fields RangeNumber, ConvertionTime, Latch
and ModeOfConversionOperation to the configuration a successful `init_rak1903`
writes; and the configuration `shutdown_rak1903` writes differs from that one
in ModeOfConversionOperation only, 0b00 instead of 0b11. -/
theorem shutdown_startup_restores (s sInit : LightState) (w1 w2 : OPT3001_ErrorCode) :
    (init_rak1903 NO_ERROR NO_ERROR sInit).1 = true ∧
    (init_rak1903 NO_ERROR NO_ERROR sInit).2.written.getLast? =
      some (init_rak1903 NO_ERROR NO_ERROR sInit).2.newConfig ∧
    (startup_rak1903 w2 (shutdown_rak1903 w1 s)).written.getLast? =
      some (startup_rak1903 w2 (shutdown_rak1903 w1 s)).newConfig ∧
    (startup_rak1903 w2 (shutdown_rak1903 w1 s)).newConfig.RangeNumber =
      (init_rak1903 NO_ERROR NO_ERROR sInit).2.newConfig.RangeNumber ∧
    (startup_rak1903 w2 (shutdown_rak1903 w1 s)).newConfig.ConvertionTime =
      (init_rak1903 NO_ERROR NO_ERROR sInit).2.newConfig.ConvertionTime ∧
    (startup_rak1903 w2 (shutdown_rak1903 w1 s)).newConfig.Latch =
      (init_rak1903 NO_ERROR NO_ERROR sInit).2.newConfig.Latch ∧
    (startup_rak1903 w2 (shutdown_rak1903 w1 s)).newConfig.ModeOfConversionOperation =
      (init_rak1903 NO_ERROR NO_ERROR sInit).2.newConfig.ModeOfConversionOperation ∧
    (shutdown_rak1903 w1 s).written.getLast? = some (shutdown_rak1903 w1 s).newConfig ∧
    (shutdown_rak1903 w1 s).newConfig.RangeNumber =
      (init_rak1903 NO_ERROR NO_ERROR sInit).2.newConfig.RangeNumber ∧
    (shutdown_rak1903 w1 s).newConfig.ConvertionTime =
      (init_rak1903 NO_ERROR NO_ERROR sInit).2.newConfig.ConvertionTime ∧
    (shutdown_rak1903 w1 s).newConfig.Latch =
      (init_rak1903 NO_ERROR NO_ERROR sInit).2.newConfig.Latch ∧
    (shutdown_rak1903 w1 s).newConfig.ModeOfConversionOperation = 0b00 ∧
    (init_rak1903 NO_ERROR NO_ERROR sInit).2.newConfig.ModeOfConversionOperation = 0b11 := by
  simp [init_rak1903, startup_rak1903, shutdown_rak1903, NO_ERROR, B1100, B0, B1, B11]

/-- C8 as stated fails: for 70000 lux with `NO_ERROR` the integer part is
70000, which `uint16_t` cannot carry; the entry appended has the value 4464. -/
theorem read_rak1903_lux_out_of_range :
    (0 : ℚ) ≤ 70000 ∧ ⌊(70000 : ℚ)⌋ = 70000 ∧
    (read_rak1903 { lux := 70000, error := NO_ERROR } lightInit).g_solution_data =
      lightInit.g_solution_data ++ [LppEntry.addLuminosity Channel.LPP_CHANNEL_LIGHT 4464] := by
  decide

/-- C8, amended: if the error of the result is `NO_ERROR` and its lux value is
non-negative and below 65536, `read_rak1903` appends exactly one luminosity
entry on `LPP_CHANNEL_LIGHT` whose value is the integer part of the lux value,
a value of `uint16_t`; if the error is not `NO_ERROR`, `read_rak1903` appends
nothing, whatever the lux value. -/
theorem read_rak1903_truncates (r : OPT3001) (s : LightState) :
    (r.error = NO_ERROR → 0 ≤ r.lux → r.lux < 65536 →
      (read_rak1903 r s).g_solution_data = s.g_solution_data ++
        [LppEntry.addLuminosity Channel.LPP_CHANNEL_LIGHT ⌊r.lux⌋.toNat] ∧
      ⌊r.lux⌋.toNat < 65536) ∧
    (r.error ≠ NO_ERROR → (read_rak1903 r s).g_solution_data = s.g_solution_data) := by
  constructor
  · intro he h0 h1
    rw [read_rak1903_payload, if_pos he, toUint16_eq_floor r.lux h0 h1]
    refine ⟨rfl, ?_⟩
    rw [← toUint16_eq_floor r.lux h0 h1]
    exact toUint16_lt r.lux
  · intro he
    rw [read_rak1903_payload, if_neg he, List.append_nil]

/-- The reading 65535.9 lux with `NO_ERROR` is appended as 65535; the reading
70000 lux with the error -20 appends nothing. -/
theorem read_rak1903_truncates_witness :
    ((0 : ℚ) ≤ 655359 / 10 ∧ (655359 / 10 : ℚ) < 65536 ∧
      ⌊(655359 / 10 : ℚ)⌋.toNat = 65535 ∧
      (read_rak1903 { lux := 655359 / 10, error := NO_ERROR } lightInit).g_solution_data =
        lightInit.g_solution_data ++
          [LppEntry.addLuminosity Channel.LPP_CHANNEL_LIGHT ⌊(655359 / 10 : ℚ)⌋.toNat] ∧
      ⌊(655359 / 10 : ℚ)⌋.toNat < 65536) ∧
    ((-20 : OPT3001_ErrorCode) ≠ NO_ERROR ∧
      (read_rak1903 { lux := 70000, error := -20 } lightInit).g_solution_data =
        lightInit.g_solution_data) :=
  ⟨⟨by norm_num, by norm_num,
      by rw [show ⌊(655359 / 10 : ℚ)⌋ = 65535 from by rw [Int.floor_eq_iff]; norm_num]; rfl,
      (read_rak1903_truncates { lux := 655359 / 10, error := NO_ERROR } lightInit).1 rfl
        (by norm_num) (by norm_num)⟩,
    ⟨by decide,
      (read_rak1903_truncates { lux := 70000, error := -20 } lightInit).2 (by decide)⟩⟩

end RAK1903

end RUI3
